import Mathlib

/-
Verification of the safety-supervised motion control loop of the
Alphamini-Project-DONKIs repository.

The development shallowly embeds the safety-relevant Python scripts:

* codes/corne_code_safety.py — obstacle avoidance with median filter,
  debounced soft avoidance, immediate hard stop, e-stop gateway
  (safe_move_robot) with step clamping and rate limiting;
* codes/final_codes/Low battery detection safety.py — gateway safe_move
  with _clamp_steps and a rate limiter;
* codes/final_codes/Posture Stability Safety.py — tilt classification
  with debounced warn/trip counters and a recovery sequence;
* codes/final_codes/Override Control Safety.py — manual override
  gateway safe_move (shutdown check only) and the w/s/a/d key mapping.

Numbers that are Python floats are modelled as rationals; wall-clock
time is an explicit rational parameter threaded through the gateway.
A call that the Python code answers by returning without executing a
MoveRobot block is modelled as the outcome DispatchOutcome.suppressed;
the issued constructor is the only outcome that represents an actuator
command being sent.
-/

/-- Movement directions used by the scripts (MoveRobotDirection). The
override script's LeftTurn and RightTurn are identified with leftward
and rightward. -/
inductive Direction where
  | forward
  | backward
  | leftward
  | rightward
deriving DecidableEq, Repr

/-- A command envelope: the direction and step count handed to the
actuator adapter (the MoveRobot block). -/
structure Cmd where
  dir : Direction
  step : ℤ
deriving DecidableEq, Repr

/-- Result of one gateway call.  suppressed: the function returned
without executing a MoveRobot block (e-stop or shutdown path).
issued: a MoveRobot block was executed for dir with the clamped step,
after sleeping for slept seconds, so the command left at issueTime. -/
inductive DispatchOutcome where
  | suppressed
  | issued (dir : Direction) (step : ℤ) (slept : ℚ) (issueTime : ℚ)
deriving DecidableEq, Repr

-- Configuration constants of codes/corne_code_safety.py.

/-- STEP_SIZE = 1 -/
def STEP_SIZE : ℤ := 1

/-- BACKWARD_STEPS = 2 -/
def BACKWARD_STEPS : ℤ := 2

/-- SAFE_DISTANCE_CM = 20 -/
def SAFE_DISTANCE_CM : ℚ := 20

/-- MEDIAN_WINDOW = 3 -/
def MEDIAN_WINDOW : ℕ := 3

/-- OBSTACLE_CONFIRM_READS = 2 -/
def OBSTACLE_CONFIRM_READS : ℕ := 2

/-- HARD_STOP_CM = 8 -/
def HARD_STOP_CM : ℚ := 8

/-- SENSOR_FAILURE_LIMIT = 5 -/
def SENSOR_FAILURE_LIMIT : ℕ := 5

/-- MAX_STEP = 6 -/
def MAX_STEP : ℤ := 6

/-- MIN_COMMAND_INTERVAL = 0.4 seconds -/
def MIN_COMMAND_INTERVAL : ℚ := 2/5

-- Configuration constants of final_codes/Low battery detection safety.py.

/-- STEP_MIN = 1 -/
def STEP_MIN : ℤ := 1

/-- STEP_MAX = 6 -/
def STEP_MAX : ℤ := 6

/-- RATE_LIMIT_S = 0.4 seconds -/
def RATE_LIMIT_S : ℚ := 2/5

-- Configuration constants of final_codes/Posture Stability Safety.py.

/-- SAFE_TILT_WARN = 10.0 degrees -/
def SAFE_TILT_WARN : ℚ := 10

/-- SAFE_TILT_TRIP = 18.0 degrees -/
def SAFE_TILT_TRIP : ℚ := 18

/-- DEBOUNCE = 3 consecutive samples confirm warn or trip -/
def DEBOUNCE : ℕ := 3

/-- MAX_STEPS = 6 (posture script clamp upper bound) -/
def MAX_STEPS : ℤ := 6

-- Configuration constants of final_codes/Override Control Safety.py.

/-- STEP_SIZE = 1 in the override script -/
def STEP_SIZE_OV : ℤ := 1

/-- Mutable module state read and written by the corne and low-battery
gateways: the e-stop flag (estop_event / _estop) and the timestamp of
the last dispatched command (_last_cmd_ts / _last_move_ts). -/
structure GatewayState where
  estop : Bool
  lastCmdTs : ℚ
deriving DecidableEq, Repr

/-- safe_move_robot of codes/corne_code_safety.py.  now is the value of
time.monotonic() at entry; execDur is how long block.execute() takes,
so the trailing _last_cmd_ts assignment records issue time + execDur.
If the e-stop flag is set the function returns at once and touches
nothing.  Otherwise the step is clamped by max(1, min(step, MAX_STEP)),
and if less than MIN_COMMAND_INTERVAL has elapsed since _last_cmd_ts
the call sleeps for exactly the remaining delta before executing. -/
def safe_move_robot (s : GatewayState) (now : ℚ) (dir : Direction)
    (step : ℤ) (execDur : ℚ) : DispatchOutcome × GatewayState :=
  if s.estop then (DispatchOutcome.suppressed, s)
  else
    let stp : ℤ := max 1 (min step MAX_STEP)
    let dt : ℚ := now - s.lastCmdTs
    let slept : ℚ := if dt < MIN_COMMAND_INTERVAL then MIN_COMMAND_INTERVAL - dt else 0
    let issue : ℚ := now + slept
    (DispatchOutcome.issued dir stp slept issue, ⟨s.estop, issue + execDur⟩)

/-- safe_move of final_codes/Low battery detection safety.py.  Returns
False (suppressed) at once when _estop is set; otherwise clamps with
_clamp_steps (max(STEP_MIN, min(STEP_MAX, n))), waits
max(0, RATE_LIMIT_S - (now - _last_move_ts)), executes, and records
_last_move_ts after execution. -/
def safe_move_lb (s : GatewayState) (now : ℚ) (dir : Direction)
    (steps : ℤ) (execDur : ℚ) : DispatchOutcome × GatewayState :=
  if s.estop then (DispatchOutcome.suppressed, s)
  else
    let stp : ℤ := max STEP_MIN (min STEP_MAX steps)
    let toWait : ℚ := max 0 (RATE_LIMIT_S - (now - s.lastCmdTs))
    (DispatchOutcome.issued dir stp toWait (now + toWait), ⟨s.estop, now + toWait + execDur⟩)

/-- safe_move of final_codes/Override Control Safety.py.  The body only
checks shutdown_event and then executes MoveRobot directly: there is no
step clamping and no rate limiter in this script, so an allowed call
issues the requested steps unchanged at the request time with zero
sleep. -/
def safe_move_ov (shutdown : Bool) (now : ℚ) (dir : Direction)
    (steps : ℤ) : DispatchOutcome :=
  if shutdown then DispatchOutcome.suppressed
  else DispatchOutcome.issued dir steps 0 now

/-- The w/s/a/d/x key mapping of manual_loop in
final_codes/Override Control Safety.py: each directional key calls
safe_move with STEP_SIZE; x and unknown keys issue no move. -/
def manualCommand (c : Char) : Option (Direction × ℤ) :=
  if c = 'w' then some (Direction.forward, STEP_SIZE_OV)
  else if c = 's' then some (Direction.backward, STEP_SIZE_OV)
  else if c = 'a' then some (Direction.leftward, STEP_SIZE_OV)
  else if c = 'd' then some (Direction.rightward, STEP_SIZE_OV)
  else none

-- ------------------------------------------------------------------
-- Obstacle-avoidance loop of codes/corne_code_safety.py
-- ------------------------------------------------------------------

/-- deque(maxlen=cap).append(x): append to the right, evicting from the
left when the buffer is full. -/
def dequePush (cap : ℕ) (buf : List ℚ) (x : ℚ) : List ℚ :=
  let b := buf ++ [x]
  b.drop (b.length - cap)

/-- median of codes/corne_code_safety.py: None on an empty list; else
sort, take the middle element for odd length and the mean of the two
middle elements for even length. -/
def median (values : List ℚ) : Option ℚ :=
  match values with
  | [] => none
  | _ =>
    let s := List.insertionSort (· ≤ ·) values
    let mid := s.length / 2
    if s.length % 2 = 1 then s.get? mid
    else
      match s.get? (mid - 1), s.get? mid with
      | some a, some b => some ((a + b) / 2)
      | _, _ => none

/-- Hazard level of a filtered distance, as decided by the branch
structure of avoid_obstacles: hard when filt < HARD_STOP_CM (strict),
otherwise soft when filt < SAFE_DISTANCE_CM, otherwise clear. -/
inductive HazardLevel where
  | hard
  | soft
  | clear
deriving DecidableEq, Repr

/-- The distance classification implicit in avoid_obstacles of
codes/corne_code_safety.py: the hard branch is `if filt < HARD_STOP_CM`
and the soft band is `if filt < SAFE_DISTANCE_CM`. -/
def classifyDistance (filt : ℚ) : HazardLevel :=
  if filt < HARD_STOP_CM then HazardLevel.hard
  else if filt < SAFE_DISTANCE_CM then HazardLevel.soft
  else HazardLevel.clear

/-- Step clamping performed inside safe_move_robot:
max(1, min(step, MAX_STEP)). -/
def clampStep (n : ℤ) : ℤ := max 1 (min n MAX_STEP)

/-- Mutable state of the avoid_obstacles loop: the e-stop flag, the
median-filter deque _distance_buf, and the counters _consecutive_close
and _consecutive_fail. -/
structure CorneState where
  estop : Bool
  buf : List ℚ
  consecutiveClose : ℕ
  consecutiveFail : ℕ
deriving DecidableEq, Repr

/-- One iteration of the while body of avoid_obstacles, given this
tick's sensor reading (none models a failed get_distance_cm).  Returns
the updated state and the command envelopes dispatched this iteration
(with the clamp the gateway would apply).  Order follows the source:
failure counting with the limit check, then the failure-counter reset
on a successful read, then the out-of-range discard, then the median
filter, then the hard-stop branch, then the debounced soft branch,
then the path-clear forward move. -/
def avoidStep (s : CorneState) (reading : Option ℚ) : CorneState × List Cmd :=
  match reading with
  | none =>
      let f := s.consecutiveFail + 1
      if SENSOR_FAILURE_LIMIT ≤ f then
        ({ s with consecutiveFail := f, estop := true }, [])
      else
        ({ s with consecutiveFail := f }, [])
  | some d =>
      let s0 := { s with consecutiveFail := 0 }
      if d ≤ 0 ∨ 5000 < d then (s0, [])
      else
        let buf := dequePush MEDIAN_WINDOW s0.buf d
        let s1 := { s0 with buf := buf }
        match median buf with
        | none => (s1, [])
        | some filt =>
          match classifyDistance filt with
          | HazardLevel.hard =>
              ({ s1 with estop := true },
               [⟨Direction.backward, clampStep (max BACKWARD_STEPS 2)⟩])
          | HazardLevel.soft =>
              let c := s1.consecutiveClose + 1
              if OBSTACLE_CONFIRM_READS ≤ c then
                ({ s1 with consecutiveClose := 0 },
                 [⟨Direction.backward, clampStep BACKWARD_STEPS⟩,
                  ⟨Direction.rightward, clampStep 2⟩])
              else
                ({ s1 with consecutiveClose := c },
                 [⟨Direction.forward, clampStep STEP_SIZE⟩])
          | HazardLevel.clear =>
              ({ s1 with consecutiveClose := 0 },
               [⟨Direction.forward, clampStep STEP_SIZE⟩])

/-- The avoid_obstacles loop over a finite trace of readings: while the
e-stop flag is not set, run one iteration per reading, accumulating the
dispatched command envelopes.  Once the flag is set the loop exits and
nothing further is dispatched. -/
def avoidRun : CorneState → List (Option ℚ) → CorneState × List Cmd
  | s, [] => (s, [])
  | s, r :: rest =>
      if s.estop then (s, [])
      else
        let t := avoidStep s r
        let next := avoidRun t.1 rest
        (next.1, t.2 ++ next.2)

-- ------------------------------------------------------------------
-- Posture monitor of final_codes/Posture Stability Safety.py
-- ------------------------------------------------------------------

/-- Tilt hazard levels in posture_monitor: trip when a tilt magnitude
reaches SAFE_TILT_TRIP, warn when it reaches SAFE_TILT_WARN, clear
otherwise. -/
inductive TiltLevel where
  | clear
  | warn
  | trip
deriving DecidableEq, Repr

/-- Classification of one (pitch, roll) sample, following the branch
order of posture_monitor: abs(pitch) >= SAFE_TILT_TRIP or
abs(roll) >= SAFE_TILT_TRIP gives trip; else the warn comparison; else
clear. -/
def classifyTilt (pitch roll : ℚ) : TiltLevel :=
  if SAFE_TILT_TRIP ≤ |pitch| ∨ SAFE_TILT_TRIP ≤ |roll| then TiltLevel.trip
  else if SAFE_TILT_WARN ≤ |pitch| ∨ SAFE_TILT_WARN ≤ |roll| then TiltLevel.warn
  else TiltLevel.clear

/-- The two debounce counters of posture_monitor: warn_count and
trip_count. -/
structure DebounceState where
  warnCount : ℕ
  tripCount : ℕ
deriving DecidableEq, Repr

/-- The command envelopes of recovery_sequence: move_safe BACKWARD one
step, then move_safe FORWARD one step (steps clamped into
[1, MAX_STEPS], so 1 stays 1). -/
def recoveryCmds : List Cmd :=
  [⟨Direction.backward, 1⟩, ⟨Direction.forward, 1⟩]

/-- Everything one posture_monitor iteration produces: the updated
counters, whether the warn confirmation printed, whether the trip
confirmation fired recovery_sequence, and the commands dispatched. -/
structure PostureTick where
  state : DebounceState
  warnEmitted : Bool
  tripEmitted : Bool
  cmds : List Cmd
deriving DecidableEq, Repr

/-- One iteration of the posture_monitor while body on an already
classified sample.  First the counter update: a trip sample increments
trip_count and zeroes warn_count; a warn sample increments warn_count
and zeroes trip_count; a clear sample zeroes both.  Then the warn
check: warn_count >= DEBOUNCE prints the warning and resets warn_count.
Then the trip check: trip_count >= DEBOUNCE runs recovery_sequence and
resets trip_count. -/
def postureStep (s : DebounceState) (lvl : TiltLevel) : PostureTick :=
  let s1 : DebounceState :=
    match lvl with
    | TiltLevel.trip => ⟨0, s.tripCount + 1⟩
    | TiltLevel.warn => ⟨s.warnCount + 1, 0⟩
    | TiltLevel.clear => ⟨0, 0⟩
  let warnEmit : Bool := decide (DEBOUNCE ≤ s1.warnCount)
  let s2 : DebounceState := if warnEmit then ⟨0, s1.tripCount⟩ else s1
  let tripEmit : Bool := decide (DEBOUNCE ≤ s2.tripCount)
  let s3 : DebounceState := if tripEmit then ⟨s2.warnCount, 0⟩ else s2
  ⟨s3, warnEmit, tripEmit, if tripEmit then recoveryCmds else []⟩

/-- posture_monitor over a finite trace of classified levels, recording
every tick. -/
def postureRun : DebounceState → List TiltLevel → List PostureTick
  | _, [] => []
  | s, l :: ls =>
      let t := postureStep s l
      t :: postureRun t.state ls

/-- The issue time carried by a gateway outcome, when a command was
actually sent. -/
def issueTimeOf : DispatchOutcome → Option ℚ
  | DispatchOutcome.suppressed => none
  | DispatchOutcome.issued _ _ _ t => some t

/-- The sleep performed by a gateway call, when a command was actually
sent. -/
def sleptOf : DispatchOutcome → Option ℚ
  | DispatchOutcome.suppressed => none
  | DispatchOutcome.issued _ _ sl _ => some sl

-- ------------------------------------------------------------------
-- Theorems
-- ------------------------------------------------------------------

/-- C1: every dispatch through the motion gateways (safe_move_robot of
corne_code_safety.py, safe_move of Low battery detection safety.py)
made while the e-stop flag is set returns immediately with the
suppressed result and issues no actuator command, for any direction
and step; and the call leaves the flag set, so the same holds for
every dispatch from that moment onward. -/
theorem c1_estop_suppresses_dispatch (g : GatewayState) (now : ℚ)
    (dir : Direction) (step : ℤ) (execDur : ℚ) (h : g.estop = true) :
    (safe_move_robot g now dir step execDur).1 = DispatchOutcome.suppressed ∧
    (safe_move_lb g now dir step execDur).1 = DispatchOutcome.suppressed ∧
    (safe_move_robot g now dir step execDur).2.estop = true ∧
    (safe_move_lb g now dir step execDur).2.estop = true := by
  simp [safe_move_robot, safe_move_lb, h]

/-- Witness for C1 at a concrete flagged state and arguments. -/
theorem c1_estop_suppresses_dispatch_witness :
    (safe_move_robot ⟨true, 0⟩ 7 Direction.forward 3 0).1 = DispatchOutcome.suppressed ∧
    (safe_move_lb ⟨true, 0⟩ 7 Direction.forward 3 0).1 = DispatchOutcome.suppressed ∧
    (safe_move_robot ⟨true, 0⟩ 7 Direction.forward 3 0).2.estop = true ∧
    (safe_move_lb ⟨true, 0⟩ 7 Direction.forward 3 0).2.estop = true :=
  c1_estop_suppresses_dispatch ⟨true, 0⟩ 7 Direction.forward 3 0 rfl

/-- C10: a dispatch suppressed by the e-stop flag leaves the gateway
state completely unchanged: safe_move_robot returns the suppressed
outcome together with exactly the input state, so _last_cmd_ts keeps
its previous value and no sleep is recorded. -/
theorem c10_suppressed_dispatch_is_frame (g : GatewayState) (now : ℚ)
    (dir : Direction) (step : ℤ) (execDur : ℚ) (h : g.estop = true) :
    safe_move_robot g now dir step execDur = (DispatchOutcome.suppressed, g) := by
  simp [safe_move_robot, h]

/-- Witness for C10 at a concrete flagged state: the last-command
timestamp 9 survives untouched. -/
theorem c10_suppressed_dispatch_is_frame_witness :
    safe_move_robot ⟨true, 9⟩ 11 Direction.backward 2 1 = (DispatchOutcome.suppressed, ⟨true, 9⟩) :=
  c10_suppressed_dispatch_is_frame ⟨true, 9⟩ 11 Direction.backward 2 1 rfl

/-- C4 counterexample: with the consecutive-failure counter at 3, the
out-of-range sample 6000 leaves the filter window unchanged but RESETS
the counter to 0 instead of incrementing it to 4, because
avoid_obstacles executes the reset on any successful read before the
range check discards the value. -/
theorem c4_out_of_range_counterexample :
    avoidStep ⟨false, [10], 2, 3⟩ (some 6000) = (⟨false, [10], 2, 0⟩, []) ∧
    (0 : ℕ) ≠ 3 + 1 := by
  with_unfolding_all decide

/-- C4 amended: an out-of-range raw sample (distance ≤ 0 or > 5000) is
never appended to the filter window — the window, the close counter,
and the flag are unchanged and no command is dispatched — but the
consecutive-failure counter is reset to zero rather than incremented:
only a failed read (None) increments it. -/
theorem c4_out_of_range_resets_failures (s : CorneState) (d : ℚ)
    (h : d ≤ 0 ∨ 5000 < d) :
    avoidStep s (some d) = ({ s with consecutiveFail := 0 }, []) := by
  simp [avoidStep, h]

/-- Witness for C4 amended, at a negative reading with nonzero
counters. -/
theorem c4_out_of_range_resets_failures_witness :
    avoidStep ⟨false, [12], 1, 4⟩ (some (-1)) = (⟨false, [12], 1, 0⟩, []) :=
  c4_out_of_range_resets_failures ⟨false, [12], 1, 4⟩ (-1) (Or.inl (by decide))

/-- C5: the override-variant gateway contradicts its own docstring
("Perform movement safely and rate-limited"): an allowed call issues
the requested steps with no clamping into [STEP_MIN, STEP_MAX] (a
9-step request goes out as 9 > STEP_MAX) and with zero sleep at the
request time, so two requests 0.01 s apart are both issued although
0.01 < RATE_LIMIT_S; manual w/a/s/d commands funnel into exactly this
function. -/
theorem c5_override_gateway_lacks_guards :
    manualCommand 'w' = some (Direction.forward, STEP_SIZE_OV) ∧
    safe_move_ov false 0 Direction.forward 9 = DispatchOutcome.issued Direction.forward 9 0 0 ∧
    STEP_MAX < (9 : ℤ) ∧
    safe_move_ov false (mkRat 1 100) Direction.forward 1 =
      DispatchOutcome.issued Direction.forward 1 0 (mkRat 1 100) ∧
    mkRat 1 100 - 0 < RATE_LIMIT_S := by
  with_unfolding_all decide

/-- C9: rate limiting of consecutive dispatches.  For the corne
gateway safe_move_robot: any two consecutively issued dispatches are
at least MIN_COMMAND_INTERVAL apart in issue time (given a nonnegative
execution duration of the first), and when a dispatch is requested
less than MIN_COMMAND_INTERVAL after the recorded last-command
timestamp the call sleeps for exactly the remaining delta.  The same
interval floor holds for the low-battery gateway safe_move with
RATE_LIMIT_S. -/
theorem c9_rate_limit (g : GatewayState) (now₁ now₂ dur₁ dur₂ : ℚ)
    (d₁ d₂ : Direction) (st₁ st₂ : ℤ)
    (hE : g.estop = false) (hdur : 0 ≤ dur₁) :
    (∀ t₁ t₂ : ℚ,
       issueTimeOf (safe_move_robot g now₁ d₁ st₁ dur₁).1 = some t₁ →
       issueTimeOf (safe_move_robot (safe_move_robot g now₁ d₁ st₁ dur₁).2 now₂ d₂ st₂ dur₂).1 = some t₂ →
       MIN_COMMAND_INTERVAL ≤ t₂ - t₁) ∧
    (now₁ - g.lastCmdTs < MIN_COMMAND_INTERVAL →
       sleptOf (safe_move_robot g now₁ d₁ st₁ dur₁).1 =
         some (MIN_COMMAND_INTERVAL - (now₁ - g.lastCmdTs))) ∧
    (∀ t₁ t₂ : ℚ,
       issueTimeOf (safe_move_lb g now₁ d₁ st₁ dur₁).1 = some t₁ →
       issueTimeOf (safe_move_lb (safe_move_lb g now₁ d₁ st₁ dur₁).2 now₂ d₂ st₂ dur₂).1 = some t₂ →
       RATE_LIMIT_S ≤ t₂ - t₁) := by
  refine ⟨?_, ?_, ?_⟩
  · intro t₁ t₂ h₁ h₂
    simp only [safe_move_robot, hE, Bool.false_eq_true, if_false, issueTimeOf] at h₁ h₂
    simp only [Option.some.injEq] at h₁ h₂
    subst h₁
    subst h₂
    split at *
    all_goals split at *
    all_goals linarith
  · intro hlt
    simp [safe_move_robot, hE, sleptOf, hlt]
  · intro t₁ t₂ h₁ h₂
    simp only [safe_move_lb, hE, Bool.false_eq_true, if_false, issueTimeOf] at h₁ h₂
    simp only [Option.some.injEq] at h₁ h₂
    subst h₁
    subst h₂
    have hm : RATE_LIMIT_S - (now₂ - (now₁ + max 0 (RATE_LIMIT_S - (now₁ - g.lastCmdTs)) + dur₁)) ≤
        max 0 (RATE_LIMIT_S - (now₂ - (now₁ + max 0 (RATE_LIMIT_S - (now₁ - g.lastCmdTs)) + dur₁))) :=
      le_max_right _ _
    linarith

/-- Witness for C9: from lastCmdTs = 10, a dispatch at 10 issues at
52/5 after sleeping 2/5, and an immediately following dispatch issues
at 54/5 — exactly the configured floor apart. -/
theorem c9_rate_limit_witness :
    MIN_COMMAND_INTERVAL ≤ (54/5 : ℚ) - 52/5 ∧
    sleptOf (safe_move_robot ⟨false, 10⟩ 10 Direction.forward 1 0).1 =
      some (MIN_COMMAND_INTERVAL - ((10 : ℚ) - 10)) ∧
    RATE_LIMIT_S ≤ (54/5 : ℚ) - 52/5 := by
  obtain ⟨a, b, c⟩ := c9_rate_limit ⟨false, 10⟩ 10 (52/5) 0 0
    Direction.forward Direction.forward 1 1 rfl le_rfl
  exact ⟨a (52/5) (54/5) (by with_unfolding_all rfl) (by with_unfolding_all rfl),
         b (by with_unfolding_all decide),
         c (52/5) (54/5) (by with_unfolding_all rfl) (by with_unfolding_all rfl)⟩

/-- C6: sensor-failure tolerance and limit in avoid_obstacles.  From a
zero failure counter, four consecutive failed reads leave the loop
running (flag down, counter 4); five consecutive failed reads latch
the e-stop flag with no command dispatched; once the flag is set the
loop processes no further sample and dispatches nothing, and every
gateway call is suppressed. -/
theorem c6_sensor_failure_limit :
    (∀ s : CorneState, s.estop = false → s.consecutiveFail = 0 →
       ((avoidRun s (List.replicate 4 none)).1.estop = false ∧
        (avoidRun s (List.replicate 4 none)).1.consecutiveFail = 4 ∧
        (avoidRun s (List.replicate 5 none)).1.estop = true ∧
        (avoidRun s (List.replicate 5 none)).2 = [])) ∧
    (∀ (s : CorneState) (trace : List (Option ℚ)), s.estop = true →
       avoidRun s trace = (s, [])) ∧
    (∀ (g : GatewayState) (now : ℚ) (dir : Direction) (step : ℤ) (dur : ℚ),
       g.estop = true →
       (safe_move_robot g now dir step dur).1 = DispatchOutcome.suppressed) := by
  refine ⟨?_, ?_, ?_⟩
  · intro s hE hF
    simp [avoidRun, avoidStep, hE, hF, SENSOR_FAILURE_LIMIT]
  · intro s trace h
    cases trace with
    | nil => rfl
    | cons r rest => simp [avoidRun, h]
  · intro g now dir step dur h
    simp [safe_move_robot, h]

/-- Witness for C6 at the initial loop state and a concrete flagged
gateway state. -/
theorem c6_sensor_failure_limit_witness :
    ((avoidRun ⟨false, [], 0, 0⟩ (List.replicate 4 none)).1.estop = false ∧
     (avoidRun ⟨false, [], 0, 0⟩ (List.replicate 4 none)).1.consecutiveFail = 4 ∧
     (avoidRun ⟨false, [], 0, 0⟩ (List.replicate 5 none)).1.estop = true ∧
     (avoidRun ⟨false, [], 0, 0⟩ (List.replicate 5 none)).2 = []) ∧
    avoidRun ⟨true, [], 0, 0⟩ [some 9] = (⟨true, [], 0, 0⟩, []) ∧
    (safe_move_robot ⟨true, 2⟩ 3 Direction.forward 1 0).1 = DispatchOutcome.suppressed :=
  ⟨c6_sensor_failure_limit.1 ⟨false, [], 0, 0⟩ rfl rfl,
   c6_sensor_failure_limit.2.1 ⟨true, [], 0, 0⟩ [some 9] rfl,
   c6_sensor_failure_limit.2.2 ⟨true, 2⟩ 3 Direction.forward 1 0 rfl⟩

/-- C7: the debounce counters of posture_monitor.  A trip-classified
sample zeroes the warn counter and increments the trip counter, whose
confirmation fires exactly when the incremented counter reaches
DEBOUNCE, resetting it to zero (edge-triggered); symmetrically for
warn; a clear sample zeroes both counters.  Consequently a level
observed DEBOUNCE - 1 consecutive times followed by any different
level never emits a confirmation for the original level. -/
theorem c7_debounce_counters :
    (∀ s : DebounceState,
       (postureStep s TiltLevel.trip).state.warnCount = 0 ∧
       (postureStep s TiltLevel.trip).warnEmitted = false ∧
       (postureStep s TiltLevel.trip).tripEmitted = decide (DEBOUNCE ≤ s.tripCount + 1) ∧
       (postureStep s TiltLevel.trip).state.tripCount =
         (if DEBOUNCE ≤ s.tripCount + 1 then 0 else s.tripCount + 1)) ∧
    (∀ s : DebounceState,
       (postureStep s TiltLevel.warn).state.tripCount = 0 ∧
       (postureStep s TiltLevel.warn).tripEmitted = false ∧
       (postureStep s TiltLevel.warn).warnEmitted = decide (DEBOUNCE ≤ s.warnCount + 1) ∧
       (postureStep s TiltLevel.warn).state.warnCount =
         (if DEBOUNCE ≤ s.warnCount + 1 then 0 else s.warnCount + 1)) ∧
    (∀ s : DebounceState,
       postureStep s TiltLevel.clear = ⟨⟨0, 0⟩, false, false, []⟩) ∧
    (∀ (w : ℕ) (l : TiltLevel), l ≠ TiltLevel.trip →
       (postureRun ⟨w, 0⟩ (List.replicate (DEBOUNCE - 1) TiltLevel.trip ++ [l])).map
         PostureTick.tripEmitted = List.replicate DEBOUNCE false) ∧
    (∀ (t : ℕ) (l : TiltLevel), l ≠ TiltLevel.warn →
       (postureRun ⟨0, t⟩ (List.replicate (DEBOUNCE - 1) TiltLevel.warn ++ [l])).map
         PostureTick.warnEmitted = List.replicate DEBOUNCE false) := by
  refine ⟨?_, ?_, ?_, ?_, ?_⟩
  · intro s
    simp only [postureStep, DEBOUNCE]
    split_ifs <;> simp_all [decide_eq_decide]
  · intro s
    simp only [postureStep, DEBOUNCE]
    split_ifs <;> simp_all [decide_eq_decide]
  · intro s
    simp [postureStep, DEBOUNCE]
  · intro w l hl
    cases l with
    | trip => exact absurd rfl hl
    | warn => simp [postureRun, postureStep, DEBOUNCE]
    | clear => simp [postureRun, postureStep, DEBOUNCE]
  · intro t l hl
    cases l with
    | warn => exact absurd rfl hl
    | trip => simp [postureRun, postureStep, DEBOUNCE]
    | clear => simp [postureRun, postureStep, DEBOUNCE]

/-- Witness for C7: two trip samples followed by a warn sample emit no
trip confirmation; two warn samples followed by a clear sample emit no
warn confirmation. -/
theorem c7_debounce_counters_witness :
    (postureRun ⟨7, 0⟩ (List.replicate (DEBOUNCE - 1) TiltLevel.trip ++ [TiltLevel.warn])).map
      PostureTick.tripEmitted = List.replicate DEBOUNCE false ∧
    (postureRun ⟨0, 7⟩ (List.replicate (DEBOUNCE - 1) TiltLevel.warn ++ [TiltLevel.clear])).map
      PostureTick.warnEmitted = List.replicate DEBOUNCE false :=
  ⟨c7_debounce_counters.2.2.2.1 7 TiltLevel.warn (by decide),
   c7_debounce_counters.2.2.2.2 7 TiltLevel.clear (by decide)⟩

/-- C2 counterexample: in the posture variant a single trip-level
sample (pitch 20 degrees, beyond SAFE_TILT_TRIP = 18) does NOT trigger
the hard reaction in the same iteration: the trip counter only rises
to 1, nothing is emitted and no command envelope is dispatched, so the
hard-hazard reaction does wait for DEBOUNCE consecutive
confirmations in this variant. -/
theorem c2_single_trip_counterexample :
    classifyTilt 20 0 = TiltLevel.trip ∧
    postureStep ⟨0, 0⟩ (classifyTilt 20 0) = ⟨⟨0, 1⟩, false, false, []⟩ := by
  with_unfolding_all decide

/-- C2 amended: in the obstacle-avoidance variant a single filtered
reading strictly below HARD_STOP_CM reacts in the same iteration with
exactly one backward command envelope (2 steps) and latches the stop
flag; in the posture variant the trip reaction is debounced — with
fewer than DEBOUNCE consecutive trip samples nothing is dispatched,
and on the DEBOUNCE-th consecutive trip sample the recovery dispatches
a backward step and then a forward step. -/
theorem c2_hard_trip_policy :
    (∀ (s : CorneState) (d m : ℚ), s.estop = false → 0 < d → d ≤ 5000 →
       median (dequePush MEDIAN_WINDOW s.buf d) = some m → m < HARD_STOP_CM →
       (avoidStep s (some d)).1.estop = true ∧
       (avoidStep s (some d)).2 = [⟨Direction.backward, 2⟩]) ∧
    (∀ s : DebounceState, s.tripCount + 1 < DEBOUNCE →
       (postureStep s TiltLevel.trip).tripEmitted = false ∧
       (postureStep s TiltLevel.trip).cmds = []) ∧
    (∀ s : DebounceState, DEBOUNCE ≤ s.tripCount + 1 →
       (postureStep s TiltLevel.trip).tripEmitted = true ∧
       (postureStep s TiltLevel.trip).cmds = recoveryCmds) := by
  refine ⟨?_, ?_, ?_⟩
  · intro s d m hE h0 h5 hm hh
    have hrange : ¬(d ≤ 0 ∨ 5000 < d) := by
      push_neg
      exact ⟨h0, h5⟩
    simp only [avoidStep, hrange, if_false]
    rw [hm]
    simp [classifyDistance, hh, clampStep, BACKWARD_STEPS, MAX_STEP]
  · intro s h
    simp only [postureStep, DEBOUNCE] at *
    split_ifs <;> simp_all
    omega
  · intro s h
    simp only [postureStep, DEBOUNCE] at *
    split_ifs <;> simp_all

/-- Witness for C2 amended at a 5 cm reading on an empty window and at
concrete counter states 0 and 2. -/
theorem c2_hard_trip_policy_witness :
    ((avoidStep ⟨false, [], 0, 0⟩ (some 5)).1.estop = true ∧
     (avoidStep ⟨false, [], 0, 0⟩ (some 5)).2 = [⟨Direction.backward, 2⟩]) ∧
    ((postureStep ⟨0, 0⟩ TiltLevel.trip).tripEmitted = false ∧
     (postureStep ⟨0, 0⟩ TiltLevel.trip).cmds = []) ∧
    ((postureStep ⟨0, 2⟩ TiltLevel.trip).tripEmitted = true ∧
     (postureStep ⟨0, 2⟩ TiltLevel.trip).cmds = recoveryCmds) :=
  ⟨c2_hard_trip_policy.1 ⟨false, [], 0, 0⟩ 5 5 rfl (by decide) (by decide) (by rfl) (by decide),
   c2_hard_trip_policy.2.1 ⟨0, 0⟩ (by decide),
   c2_hard_trip_policy.2.2 ⟨0, 2⟩ (by decide)⟩

/-- C3 counterexample: in the obstacle-avoidance variant, an execution
with no e-stop signal and no sensor failure that trips the hard stop
(single 5 cm reading from the initial state) latches the e-stop flag,
after which the loop dispatches no further motion command and the
gateway suppresses every dispatch — contradicting that subsequent
motion commands can still be dispatched after every hard stop. -/
theorem c3_hard_stop_terminal_counterexample :
    (avoidStep ⟨false, [], 0, 0⟩ (some 5)).1 = ⟨true, [5], 0, 0⟩ ∧
    avoidRun (⟨true, [5], 0, 0⟩ : CorneState) [some 100, some 100] = (⟨true, [5], 0, 0⟩, []) ∧
    (safe_move_robot ⟨true, 0⟩ 50 Direction.forward 1 0).1 = DispatchOutcome.suppressed := by
  with_unfolding_all decide

/-- C3 amended: in the posture variant the hard (trip) stop is
non-terminal — after DEBOUNCE consecutive trip samples the recovery
maneuver (one backward step then one forward step) is dispatched and
the counters return to the initial state, so the loop resumes and can
dispatch again; whenever a trip confirmation fires, the trip counter
is reset.  In the obstacle-avoidance variant, by contrast, the hard
stop latches the e-stop flag: with the flag set the loop dispatches
nothing further. -/
theorem c3_recovery_policy :
    postureRun ⟨0, 0⟩ [TiltLevel.trip, TiltLevel.trip, TiltLevel.trip] =
      [⟨⟨0, 1⟩, false, false, []⟩, ⟨⟨0, 2⟩, false, false, []⟩,
       ⟨⟨0, 0⟩, false, true, recoveryCmds⟩] ∧
    (∀ s : DebounceState, (postureStep s TiltLevel.trip).tripEmitted = true →
       (postureStep s TiltLevel.trip).state.tripCount = 0) ∧
    (∀ (s : CorneState) (trace : List (Option ℚ)), s.estop = true →
       avoidRun s trace = (s, [])) := by
  refine ⟨by with_unfolding_all decide, ?_, ?_⟩
  · intro s h
    simp only [postureStep, DEBOUNCE] at *
    split_ifs <;> simp_all
  · intro s trace h
    cases trace with
    | nil => rfl
    | cons r rest => simp [avoidRun, h]

/-- Witness for C3 amended at the counter state 2 and a flagged loop
state. -/
theorem c3_recovery_policy_witness :
    (postureStep ⟨0, 2⟩ TiltLevel.trip).state.tripCount = 0 ∧
    avoidRun ⟨true, [5], 0, 2⟩ [some 30] = (⟨true, [5], 0, 2⟩, []) :=
  ⟨c3_recovery_policy.2.1 ⟨0, 2⟩ (by decide),
   c3_recovery_policy.2.2 ⟨true, [5], 0, 2⟩ [some 30] rfl⟩

/-- C8 counterexample: a filtered distance exactly equal to
HARD_STOP_CM (8 cm) classifies as soft, not hard — avoid_obstacles
compares with strict less-than — so from the initial state an 8 cm
reading takes the debounced soft branch (close counter 1, forward
move) instead of the hard stop. -/
theorem c8_boundary_counterexample :
    classifyDistance HARD_STOP_CM = HazardLevel.soft ∧
    HazardLevel.soft ≠ HazardLevel.hard ∧
    avoidStep ⟨false, [], 0, 0⟩ (some 8) = (⟨false, [8], 1, 0⟩, [⟨Direction.forward, 1⟩]) := by
  with_unfolding_all decide

/-- C8 amended: the distance classification is hard exactly when the
value is strictly below HARD_STOP_CM, soft exactly on
[HARD_STOP_CM, SAFE_DISTANCE_CM), and clear exactly at or above
SAFE_DISTANCE_CM; the tilt classification is trip exactly when a tilt
magnitude reaches SAFE_TILT_TRIP (the boundary value trips), and warn
exactly when no magnitude reaches trip but one reaches
SAFE_TILT_WARN. -/
theorem c8_classification_boundaries (v p r : ℚ) :
    ((classifyDistance v = HazardLevel.hard) ↔ v < HARD_STOP_CM) ∧
    ((classifyDistance v = HazardLevel.soft) ↔ HARD_STOP_CM ≤ v ∧ v < SAFE_DISTANCE_CM) ∧
    ((classifyDistance v = HazardLevel.clear) ↔ SAFE_DISTANCE_CM ≤ v) ∧
    ((classifyTilt p r = TiltLevel.trip) ↔ SAFE_TILT_TRIP ≤ |p| ∨ SAFE_TILT_TRIP ≤ |r|) ∧
    ((classifyTilt p r = TiltLevel.warn) ↔
       ¬(SAFE_TILT_TRIP ≤ |p| ∨ SAFE_TILT_TRIP ≤ |r|) ∧
       (SAFE_TILT_WARN ≤ |p| ∨ SAFE_TILT_WARN ≤ |r|)) := by
  unfold classifyDistance classifyTilt HARD_STOP_CM SAFE_DISTANCE_CM SAFE_TILT_TRIP SAFE_TILT_WARN
  split_ifs <;> simp_all <;> linarith
